import Mathlib

/-!
Verification of the grid resolution and decoding path of the testgrid API
server (pkg/api/v1/state.go), shallowly embedded in Lean.

Machine integers (int32, int64) are modelled as Int; the Started column
field is a float64 in the source but only integer-valued milliseconds are
meaningful, and for integer values in the exactly-representable range the
float operations the source performs (division by 1000, math.Mod, and the
truncating int64/int32 conversions) coincide with truncating integer
arithmetic, which is what the model uses.

Go maps are modelled as association lists with List.lookup; a Go panic
(index out of range, or a nil pointer dereference on a missing map entry)
is modelled as the Option value none. External
collaborators (the GCS client, the tabulator path builder, url resolution)
are modelled as function-valued fields of an environment record, since the
source only calls them.
-/

namespace TestgridAPI

/-- Model of decodeRLE from state.go: the inner pair loop. The Go loop
`for c := encodedData[i+1]; c > 0; c--` appends the value exactly
`runLength.toNat` times (zero times for a zero or negative run length). -/
def decodeRLEPairs : List Int → List Int
  | value :: runLength :: rest =>
      List.replicate runLength.toNat value ++ decodeRLEPairs rest
  | _ => []

/-- Model of decodeRLE from state.go: decodes run length encoded data.
The Go function returns the nil slice (empty) when the input length is odd. -/
def decodeRLE (encodedData : List Int) : List Int :=
  if encodedData.length % 2 = 0 then decodeRLEPairs encodedData else []

/-- Flattens a list of (value, runLength) pairs into the wire form consumed
by decodeRLE; every even-length input arises this way. -/
def flattenPairs : List (Int × Int) → List Int
  | [] => []
  | (v, r) :: rest => v :: r :: flattenPairs rest

/-- Splits a character list into maximal whitespace-free words; the second
argument accumulates the current word in reverse. -/
def wordsAux : List Char → List Char → List (List Char)
  | [], acc => if acc.isEmpty then [] else [acc.reverse]
  | c :: rest, acc =>
      if c.isWhitespace then
        if acc.isEmpty then wordsAux rest []
        else acc.reverse :: wordsAux rest []
      else wordsAux rest (c :: acc)

/-- Joins words with single spaces. -/
def joinWords : List (List Char) → List Char
  | [] => []
  | [w] => w
  | w :: rest => w ++ ' ' :: joinWords rest

/-- Modelled from the spec: config.Normalize (package config, whose source is
not included here; findDashboardTab calls it on both inputs). The spec says
the normalization rule is to case-fold and collapse/trim whitespace, and that
the function is total and deterministic. -/
def normalize (s : String) : String :=
  String.mk (joinWords (wordsAux (s.data.map Char.toLower) []))

/-- One entry of a Dashboard DashboardTab list: its name and its backing test
group name (the two fields findDashboardTab reads). -/
structure DashboardTab where
  name : String
  testGroupName : String
deriving DecidableEq

/-- The dashboards map of the configuration snapshot (cfg.Config.Dashboards):
dashboard canonical name to its ordered tab list, as an association list. -/
structure Configuration where
  dashboards : List (String × List DashboardTab)
deriving DecidableEq

/-- Model of cachedConfig as consumed by findDashboardTab: the configuration
(nil-able, hence Option) and the two derived normalized indexes
NormalDashboard and NormalDashboardTab, as association lists. A missing outer
key of NormalDashboardTab behaves like the Go nil inner map: every inner
lookup misses. -/
structure CachedConfig where
  config : Option Configuration
  normalDashboard : List (String × String)
  normalDashboardTab : List (String × List (String × String))
deriving DecidableEq

/-- The failure cases of findDashboardTab, one constructor per distinct Go
error value it can return. -/
inductive FindError where
  | emptyConfig
  | dashboardNotFound (key : String)
  | tabNotFound (key : String)
  | testGroupNotFound
deriving DecidableEq

/-- The four return values of findDashboardTab: dashboard name, tab name,
test group name, and the error (none on success), exactly as the Go function
returns them. -/
structure FindResult where
  dashboardName : String
  tabName : String
  testGroupName : String
  err : Option FindError
deriving DecidableEq

/-- Model of the lookup cfg.Config.Dashboards[dashboardName]: the Go map
holds pointers to Dashboard messages, so a missing key yields nil and the
subsequent field access .DashboardTab is a nil pointer dereference, a Go
panic; none models that nil miss, the panic happening at the use site. -/
def dashboardTabsOf (conf : Configuration) (dashboardName : String) :
    Option (List DashboardTab) :=
  List.lookup dashboardName conf.dashboards

/-- Model of the final loop of findDashboardTab: scan the tab list for the
first tab whose Name equals tabName and return its TestGroupName. -/
def findTestGroup : List DashboardTab → String → Option String
  | [], _ => none
  | tab :: rest, tabName =>
      if tab.name = tabName then some tab.testGroupName
      else findTestGroup rest tabName

/-- Model of findDashboardTab from state.go: locates a dashboard tab in the
config given a dashboard and tab name. The Option on the config argument
models the Go checks cfg == nil and cfg.Config == nil; the Option on the
result models a Go panic: when the normalized indexes name a dashboard that
is missing from the dashboards map, the range over
cfg.Config.Dashboards[dashboardName].DashboardTab dereferences a nil
pointer (none; unreachable when the indexes are derived from the map, as a
snapshot refresh builds them). -/
def findDashboardTab (cfg : Option CachedConfig)
    (dashboardInput tabInput : String) : Option FindResult :=
  match cfg with
  | none => some ⟨"", "", "", some .emptyConfig⟩
  | some c =>
    match c.config with
    | none => some ⟨"", "", "", some .emptyConfig⟩
    | some conf =>
      let dashboardKey := normalize dashboardInput
      let tabKey := normalize tabInput
      match List.lookup dashboardKey c.normalDashboard with
      | none => some ⟨"", "", "", some (.dashboardNotFound dashboardKey)⟩
      | some dashboardName =>
        match (List.lookup dashboardKey c.normalDashboardTab).bind
            (List.lookup tabKey) with
        | none => some ⟨dashboardName, "", "", some (.tabNotFound tabKey)⟩
        | some tabName =>
          match dashboardTabsOf conf dashboardName with
          | none => none
          | some tabs =>
            match findTestGroup tabs tabName with
            | some group => some ⟨dashboardName, tabName, group, none⟩
            | none => some ⟨dashboardName, tabName, "", some .testGroupNotFound⟩

/-- A concrete configuration snapshot used by witnesses: a dashboard
My Dash with one tab Tab1 backed by group1, plus a dashboard Ghost whose
tab list contains only Tab2, so that a normalized index entry mapping a
tab key to the canonical name Tab1 finds no matching tab there. -/
def wConf : Configuration :=
  ⟨[("My Dash", [⟨"Tab1", "group1"⟩]), ("Ghost", [⟨"Tab2", "group2"⟩])]⟩

/-- A concrete cached config over wConf, with the two normalized indexes. -/
def wCfg : CachedConfig :=
  ⟨some wConf,
   [("my dash", "My Dash"), ("ghost", "Ghost")],
   [("my dash", [("tab1", "Tab1")]), ("ghost", [("tab1", "Tab1")])]⟩

/-- A column of the stored grid (statepb.Grid), with the fields the server
reads: name, build, start time in milliseconds, extra headers, hotlist ids.
Started is a float64 in the proto; integer-valued milliseconds are modelled
as Int (see the header comment). -/
structure GridColumn where
  name : String
  build : String
  started : Int
  extra : List String
  hotlistIds : String
deriving DecidableEq

/-- A row of the stored grid (statepb.Grid), with the fields the server
reads: name, run-length-encoded results, and the parallel cellIds, messages
and icons arrays, plus issues. The alert field is elided (passed through
opaquely by the server). -/
structure GridRow where
  name : String
  results : List Int
  cellIds : List String
  messages : List String
  icons : List String
  issues : List String
deriving DecidableEq

/-- The stored grid: ordered columns and rows. -/
structure Grid where
  columns : List GridColumn
  rows : List GridRow
deriving DecidableEq

/-- A protobuf Timestamp: seconds and nanos, modelled as Int. -/
structure Timestamp where
  seconds : Int
  nanos : Int
deriving DecidableEq

/-- The timestamp arithmetic of ListHeaders on a Started value: Go computes
sec := millis / 1000 and nanos := math.Mod(millis, 1000) * 1e6 on float64 and
converts with int64(sec) and int32(nanos); for integer-valued millis in the
exact range this is truncating division (Int.tdiv) and the truncated
remainder (Int.tmod, sign of the dividend), which is how math.Mod and the
Go float-to-int conversions behave. -/
def startedTimestamp (millis : Int) : Timestamp :=
  ⟨Int.tdiv millis 1000, Int.tmod millis 1000 * 1000000⟩

/-- A header record of ListHeadersResponse. -/
structure Header where
  name : String
  build : String
  started : Timestamp
  extra : List String
  hotlistIds : String
deriving DecidableEq

/-- The per-column projection of the ListHeaders loop. -/
def headerOfColumn (c : GridColumn) : Header :=
  ⟨c.name, c.build, startedTimestamp c.started, c.extra, c.hotlistIds⟩

/-- The column-to-header projection of ListHeaders over a whole grid. -/
def listHeadersOfGrid (g : Grid) : List Header :=
  g.columns.map headerOfColumn

/-- A cell record of ListRowsResponse. -/
structure Cell where
  result : Int
  cellId : String
  message : String
  icon : String
deriving DecidableEq

/-- A row record of ListRowsResponse: name, issues and the built cells (the
alert passthrough is elided, as on GridRow). -/
structure RowRecord where
  name : String
  issues : List String
  cells : List Cell
deriving DecidableEq

/-- Collects f over a list, none as soon as f gives none; models a loop
whose body can panic. -/
def traverseOption {α β : Type} (f : α → Option β) : List α → Option (List β)
  | [] => some []
  | a :: rest =>
      match f a, traverseOption f rest with
      | some b, some bs => some (b :: bs)
      | _, _ => none

/-- The body of the ListRows cell loop at index cellIdx: index the decoded
results and the cellIds, messages and icons arrays; an out-of-range index
is a Go panic, modelled as none. -/
def cellAt (r : GridRow) (decoded : List Int) (i : Nat) : Option Cell :=
  match decoded[i]? with
  | none => none
  | some res =>
    match r.cellIds[i]? with
    | none => none
    | some cid =>
      match r.messages[i]? with
      | none => none
      | some msg =>
        match r.icons[i]? with
        | none => none
        | some icon => some ⟨res, cid, msg, icon⟩

/-- The ListRows cell loop for one row: cellsCount := len(cellIds), then
build a cell for cellIdx = 0 .. cellsCount - 1. -/
def rowCells (r : GridRow) : Option (List Cell) :=
  traverseOption (cellAt r (decodeRLE r.results)) (List.range r.cellIds.length)

/-- One row of the ListRows response. -/
def rowRecord (r : GridRow) : Option RowRecord :=
  (rowCells r).map (fun cs => ⟨r.name, r.issues, cs⟩)

/-- The row projection of ListRows over a whole grid; none models a panic in
any row. -/
def listRowsOfGrid (g : Grid) : Option (List RowRecord) :=
  traverseOption rowRecord g.rows

/-- The external collaborators of the grid fetch path, as abstract function
fields: per-scope config path resolution, the url ResolveReference used by
GroupGrid, the tabulator TabStatePath builder, and gcs.DownloadGrid, which
can succeed while returning no grid (the Go nil). Errors carry the Go error
strings. -/
structure GridEnv where
  configPath : String → Except String String
  resolveReference : String → String → Except String String
  tabStatePath : String → String → String → String → Except String String
  downloadGrid : String → Except String (Option Grid)

/-- The server fields the grid fetch path reads: the environment plus the
GridPathPrefix and TabPathPrefix configuration strings (named gridPathPfx
and tabPathPfx here). -/
structure Server where
  env : GridEnv
  gridPathPfx : String
  tabPathPfx : String

/-- Go path.Join for the already-clean inputs used here: join with a slash,
dropping empty parts (dot-segment cleaning elided). -/
def pathJoin (a b : String) : String :=
  if a = "" then b else if b = "" then a else a ++ "/" ++ b

/-- Model of Server.GroupGrid: resolve GridPathPrefix/groupName against the
config path and download the grid at the result, wrapping errors with the
same prefixes as the Go fmt.Errorf calls. -/
def groupGrid (s : Server) (configPath groupName : String) :
    Except String (Option Grid) :=
  match s.env.resolveReference configPath (pathJoin s.gridPathPfx groupName) with
  | .error e => .error ("resolve: " ++ e)
  | .ok groupPath =>
      match s.env.downloadGrid groupPath with
      | .error e => .error ("load: " ++ e)
      | .ok g => .ok g

/-- Model of Server.Grid: resolve the config path for the scope; when
TabPathPrefix is empty fall back to GroupGrid (test group path resolution),
otherwise build the tabulator tab state path from the dashboard and tab
names and download from it. -/
def fetchGrid (s : Server)
    (scope dashboardName tabName testGroupName : String) :
    Except String (Option Grid) :=
  match s.env.configPath scope with
  | .error e => .error e
  | .ok configPath =>
      if s.tabPathPfx = "" then groupGrid s configPath testGroupName
      else
        match s.env.tabStatePath configPath s.tabPathPfx
            dashboardName tabName with
        | .error e => .error ("tab state path: " ++ e)
        | .ok p => s.env.downloadGrid p

/-- The error values ListHeaders and ListRows can return, one constructor
per distinct Go error site. There is no malformed-grid constructor because
the code has no such error. -/
inductive ApiError where
  | configError (msg : String)
  | findError (e : FindError)
  | dashboardOrTabNotFound (dashboard tab : String)
  | gridNotFound
deriving DecidableEq

/-- Go %q formatting: wraps the argument in double quotes (escaping of
special characters elided). -/
def goQuote (s : String) : String := "\"" ++ s ++ "\""

/-- The Go error messages of findDashboardTab, as built by errors.New and
fmt.Errorf in state.go. -/
def FindError.message : FindError → String
  | .emptyConfig => "empty config"
  | .dashboardNotFound key => "Dashboard \x7b" ++ goQuote key ++ "\x7d not found"
  | .tabNotFound key => "Tab \x7b" ++ goQuote key ++ "\x7d not found"
  | .testGroupNotFound => "Test group not found"

/-- The Go error messages of the ListHeaders and ListRows error returns. -/
def ApiError.message : ApiError → String
  | .configError msg => msg
  | .findError e => e.message
  | .dashboardOrTabNotFound d t =>
      "Dashboard \x7b" ++ goQuote d ++ "\x7d or tab \x7b" ++ goQuote t
        ++ "\x7d not found"
  | .gridNotFound => "grid not found"

/-- Model of Server.ListHeaders. The cfg argument stands for the getConfig
result (an error, or a possibly-nil cached config); the timeout and mutex
surrounding the body are concurrency machinery outside this model. The
outer Option models a Go panic inside findDashboardTab, none meaning the
handler panics instead of returning. -/
def listHeaders (s : Server) (cfg : Except String (Option CachedConfig))
    (scope dashboard tab : String) :
    Option (Except ApiError (List Header)) :=
  match cfg with
  | .error e => some (.error (.configError e))
  | .ok c =>
    match findDashboardTab c dashboard tab with
    | none => none
    | some fr =>
      match fr.err with
      | some e => some (.error (.findError e))
      | none =>
          match fetchGrid s scope fr.dashboardName fr.tabName
              fr.testGroupName with
          | .error _ => some (.error (.dashboardOrTabNotFound dashboard tab))
          | .ok none => some (.error .gridNotFound)
          | .ok (some g) => some (.ok (listHeadersOfGrid g))

/-- Model of Server.ListRows; the outer Option models a Go panic, either
inside findDashboardTab or in the cell loop (index out of range), none
meaning the handler panics instead of returning. -/
def listRows (s : Server) (cfg : Except String (Option CachedConfig))
    (scope dashboard tab : String) :
    Option (Except ApiError (List RowRecord)) :=
  match cfg with
  | .error e => some (.error (.configError e))
  | .ok c =>
    match findDashboardTab c dashboard tab with
    | none => none
    | some fr =>
      match fr.err with
      | some e => some (.error (.findError e))
      | none =>
          match fetchGrid s scope fr.dashboardName fr.tabName
              fr.testGroupName with
          | .error _ => some (.error (.dashboardOrTabNotFound dashboard tab))
          | .ok none => some (.error .gridNotFound)
          | .ok (some g) =>
              match listRowsOfGrid g with
              | none => none
              | some rows => some (.ok rows)

/-- http.StatusNotFound. -/
def statusNotFound : Nat := 404

/-- http.StatusOK, the implicit status of a successful writeJSON reply. -/
def statusOK : Nat := 200

/-- The status ListHeadersHTTP writes: http.Error with StatusNotFound on
every error from ListHeaders, 200 on success; none when the handler
panics, since this code then writes no status. -/
def listHeadersHTTPStatus (r : Option (Except ApiError (List Header))) :
    Option Nat :=
  match r with
  | none => none
  | some (.error _) => some statusNotFound
  | some (.ok _) => some statusOK

/-- The status ListRowsHTTP writes: http.Error with StatusNotFound on every
error from ListRows, 200 on success; none when the handler panics, since
this code then writes no status. -/
def listRowsHTTPStatus (r : Option (Except ApiError (List RowRecord))) :
    Option Nat :=
  match r with
  | none => none
  | some (.error _) => some statusNotFound
  | some (.ok _) => some statusOK

/-- A well-formed grid used by witnesses: one column and one aligned row. -/
def wGrid : Grid :=
  ⟨[⟨"c1", "b1", 1500, [], ""⟩],
   [⟨"row1", [1, 2], ["a", "b"], ["m1", "m2"], ["i1", "i2"], []⟩]⟩

/-- A grid whose single row violates the alignment invariant: the results
decode to [1,1,1,1] (length 4) while cellIds, messages and icons have
length 2. -/
def gMismatch : Grid :=
  ⟨[], [⟨"row1", [1, 4], ["a", "b"], ["m1", "m2"], ["i1", "i2"], []⟩]⟩

/-- A row whose decoded results (length 1) are shorter than its cellIds
(length 2): indexing decoded[1] panics in Go. -/
def rShort : GridRow := ⟨"row2", [1, 1], ["a", "b"], ["m1", "m2"], ["i1", "i2"], []⟩

/-- A witness environment where every external call succeeds and the
download returns wGrid. -/
def wEnv : GridEnv :=
  ⟨fun _ => .ok "gs://bucket/config",
   fun base rel => .ok (base ++ "/" ++ rel),
   fun base pfx d t => .ok (base ++ "/" ++ pfx ++ "/" ++ d ++ "/" ++ t),
   fun _ => .ok (some wGrid)⟩

/-- Like wEnv but the download returns the misaligned grid gMismatch. -/
def wEnvMismatch : GridEnv :=
  ⟨wEnv.configPath, wEnv.resolveReference, wEnv.tabStatePath,
   fun _ => .ok (some gMismatch)⟩

/-- Like wEnv but the blob download fails. -/
def wEnvFail : GridEnv :=
  ⟨wEnv.configPath, wEnv.resolveReference, wEnv.tabStatePath,
   fun _ => .error "storage: connection reset"⟩

/-- Like wEnv but the store reports success with no grid (the Go nil). -/
def wEnvNil : GridEnv :=
  ⟨wEnv.configPath, wEnv.resolveReference, wEnv.tabStatePath,
   fun _ => .ok none⟩

/-- A server configured with a tab path (tabulator mode). -/
def wServerTab : Server := ⟨wEnv, "grid", "tabs"⟩

/-- A server with an empty TabPathPrefix (legacy group path mode). -/
def wServerGroup : Server := ⟨wEnv, "grid", ""⟩

/-- Tabulator-mode server whose download returns gMismatch. -/
def wServerMismatch : Server := ⟨wEnvMismatch, "grid", "tabs"⟩

/-- Tabulator-mode server whose download fails. -/
def wServerFail : Server := ⟨wEnvFail, "grid", "tabs"⟩

/-- Tabulator-mode server whose download succeeds with a nil grid. -/
def wServerNil : Server := ⟨wEnvNil, "grid", "tabs"⟩

theorem flattenPairs_length (pairs : List (Int × Int)) :
    (flattenPairs pairs).length = 2 * pairs.length := by
  induction pairs with
  | nil => rfl
  | cons p rest ih => cases p; simp [flattenPairs, ih]; ring

theorem decodeRLEPairs_flatten (pairs : List (Int × Int)) :
    decodeRLEPairs (flattenPairs pairs)
      = (pairs.map (fun p => List.replicate p.2.toNat p.1)).flatten := by
  induction pairs with
  | nil => rfl
  | cons p rest ih => cases p; simp [flattenPairs, decodeRLEPairs, ih]

theorem decodeRLE_flatten (pairs : List (Int × Int)) :
    decodeRLE (flattenPairs pairs)
      = (pairs.map (fun p => List.replicate p.2.toNat p.1)).flatten := by
  unfold decodeRLE
  rw [flattenPairs_length]
  simp [decodeRLEPairs_flatten]

/-- Claim C1: for every even-length input of (value, runLength) pairs with
nonnegative run lengths, decodeRLE returns the concatenation, in pair
order, of each value repeated its run length; the output length equals the
sum of the run lengths (so a zero run length contributes nothing); and
decode([0,3,5,4]) = [0,0,0,5,5,5,5]. -/
theorem decodeRLE_even_spec (pairs : List (Int × Int))
    (hpos : ∀ p ∈ pairs, 0 ≤ p.2) :
    decodeRLE (flattenPairs pairs)
        = (pairs.map (fun p => List.replicate p.2.toNat p.1)).flatten
      ∧ ((decodeRLE (flattenPairs pairs)).length : Int)
        = (pairs.map (fun p => p.2)).sum
      ∧ decodeRLE [0, 3, 5, 4] = [0, 0, 0, 5, 5, 5, 5] := by
  refine ⟨decodeRLE_flatten pairs, ?_, by decide⟩
  rw [decodeRLE_flatten]
  induction pairs with
  | nil => rfl
  | cons p rest ih =>
      have hp : 0 ≤ p.2 := hpos p (List.mem_cons_self p rest)
      have hrest : ∀ q ∈ rest, 0 ≤ q.2 :=
        fun q hq => hpos q (List.mem_cons_of_mem p hq)
      simp only [List.map_cons, List.flatten, List.length_append,
        List.length_replicate, List.sum_cons]
      push_cast
      rw [ih hrest, Int.toNat_of_nonneg hp]

/-- Witness for C1 at pairs = [(0,3),(5,4)]. -/
theorem decodeRLE_even_spec_witness :
    decodeRLE (flattenPairs [((0 : Int), (3 : Int)), (5, 4)])
        = ([((0 : Int), (3 : Int)), (5, 4)].map
            (fun p => List.replicate p.2.toNat p.1)).flatten
      ∧ ((decodeRLE (flattenPairs [((0 : Int), (3 : Int)), (5, 4)])).length : Int)
        = ([((0 : Int), (3 : Int)), (5, 4)].map (fun p => p.2)).sum
      ∧ decodeRLE [0, 3, 5, 4] = [0, 0, 0, 5, 5, 5, 5] :=
  decodeRLE_even_spec [(0, 3), (5, 4)] (by decide)

/-- Claim C8: on every odd-length input, decodeRLE returns the empty list:
no prefix of the input is decoded and no partial output is produced (the
empty result is the malformed-input signal in this code base). -/
theorem decodeRLE_odd_empty (encodedData : List Int)
    (hodd : encodedData.length % 2 = 1) :
    decodeRLE encodedData = [] := by
  unfold decodeRLE
  rw [hodd]
  simp

/-- Witness for C8 at the odd-length input [0,3,5]. -/
theorem decodeRLE_odd_empty_witness :
    ([(0 : Int), 3, 5].length % 2 = 1) ∧ decodeRLE [0, 3, 5] = [] :=
  ⟨by decide, decodeRLE_odd_empty [0, 3, 5] (by decide)⟩

/-- Claim C10: decodeRLE is total (it is a Lean def, hence terminating on
every input), and on even-length input it returns the concatenation over
pairs of the value repeated max(runLength, 0) times: a negative run length
contributes no elements, silently. -/
theorem decodeRLE_total_neg_run (pairs : List (Int × Int)) :
    decodeRLE (flattenPairs pairs)
      = (pairs.map (fun p => List.replicate (max p.2 0).toNat p.1)).flatten := by
  rw [decodeRLE_flatten]
  have h : ∀ p : Int × Int, (max p.2 0).toNat = p.2.toNat := by
    intro p; omega
  simp only [h]

/-- Claim C4: with a non-nil config, findDashboardTab fails in exactly one of
three tiers: normalized dashboard key absent gives dashboardNotFound with the
dashboard field empty; dashboard found but normalized tab key absent gives
tabNotFound with the dashboard populated and tab and test group empty; both
found, the dashboard present in the dashboards map, but no tab of its tab
list matching the canonical tab name gives testGroupNotFound with dashboard
and tab populated and test group empty. The dashboard-present hypothesis of
the third tier excludes the state where the normalized indexes name a
dashboard missing from the dashboards map: there the code panics on a nil
pointer instead of returning, a state a snapshot whose indexes are derived
from the map never reaches. -/
theorem findDashboardTab_three_tiers (c : CachedConfig) (conf : Configuration)
    (hconf : c.config = some conf) (dIn tIn : String) :
    (List.lookup (normalize dIn) c.normalDashboard = none →
      findDashboardTab (some c) dIn tIn
        = some ⟨"", "", "", some (.dashboardNotFound (normalize dIn))⟩)
    ∧ (∀ dName, List.lookup (normalize dIn) c.normalDashboard = some dName →
        (List.lookup (normalize dIn) c.normalDashboardTab).bind
            (List.lookup (normalize tIn)) = none →
        findDashboardTab (some c) dIn tIn
          = some ⟨dName, "", "", some (.tabNotFound (normalize tIn))⟩)
    ∧ (∀ dName tName tabs,
        List.lookup (normalize dIn) c.normalDashboard = some dName →
        (List.lookup (normalize dIn) c.normalDashboardTab).bind
            (List.lookup (normalize tIn)) = some tName →
        dashboardTabsOf conf dName = some tabs →
        findTestGroup tabs tName = none →
        findDashboardTab (some c) dIn tIn
          = some ⟨dName, tName, "", some .testGroupNotFound⟩) := by
  refine ⟨fun h1 => ?_, fun dName h1 h2 => ?_,
    fun dName tName tabs h1 h2 h3 h4 => ?_⟩
  all_goals simp [findDashboardTab, hconf, h1]
  · simp [h2]
  · simp [h2, h3, h4]

/-- Witness for C4: each of the three failure tiers observed on wCfg; the
third tier hits the Ghost dashboard, present in the dashboards map with a
tab list that lacks the canonical name Tab1. -/
theorem findDashboardTab_three_tiers_witness :
    findDashboardTab (some wCfg) "Nope" "Tab1"
        = some ⟨"", "", "", some (.dashboardNotFound "nope")⟩
      ∧ findDashboardTab (some wCfg) "My Dash" "Missing"
        = some ⟨"My Dash", "", "", some (.tabNotFound "missing")⟩
      ∧ findDashboardTab (some wCfg) "Ghost" "Tab1"
        = some ⟨"Ghost", "Tab1", "", some .testGroupNotFound⟩ :=
  ⟨(findDashboardTab_three_tiers wCfg wConf rfl "Nope" "Tab1").1 (by decide),
   (findDashboardTab_three_tiers wCfg wConf rfl "My Dash" "Missing").2.1
     "My Dash" (by decide) (by decide),
   (findDashboardTab_three_tiers wCfg wConf rfl "Ghost" "Tab1").2.2
     "Ghost" "Tab1" [⟨"Tab2", "group2"⟩]
     (by decide) (by decide) (by decide) (by decide)⟩

/-- Claim C5: the result of findDashboardTab depends on its string inputs
only through their normalized forms: inputs that normalize to the same keys
produce the same result (same resolved identity or the same failure). -/
theorem findDashboardTab_normalize_invariant (cfg : Option CachedConfig)
    (d1 t1 d2 t2 : String)
    (hd : normalize d1 = normalize d2) (ht : normalize t1 = normalize t2) :
    findDashboardTab cfg d1 t1 = findDashboardTab cfg d2 t2 := by
  cases cfg with
  | none => rfl
  | some c => simp only [findDashboardTab, hd, ht]

/-- Witness for C5: the spec example inputs My Dash / Tab1 and a differently
cased and spaced variant resolve identically on wCfg. -/
theorem findDashboardTab_normalize_invariant_witness :
    normalize "My Dash" = normalize "  my   dash  "
      ∧ normalize "Tab1" = normalize "tab1"
      ∧ findDashboardTab (some wCfg) "My Dash" "Tab1"
        = findDashboardTab (some wCfg) "  my   dash  " "tab1" :=
  ⟨by decide, by decide,
   findDashboardTab_normalize_invariant (some wCfg) "My Dash" "Tab1"
     "  my   dash  " "tab1" (by decide) (by decide)⟩

/-- Counterexample to claim C3: at started = -1500 milliseconds the code
produces seconds = -1 (truncation, not the floor -2) and
nanos = -500000000, a negative nanos field, contradicting both the floor
division and the never-negative-nanos parts of the claim. -/
theorem listHeaders_negative_millis_counterexample :
    listHeadersOfGrid ⟨[⟨"c1", "b1", -1500, [], ""⟩], []⟩
        = [⟨"c1", "b1", ⟨-1, -500000000⟩, [], ""⟩]
      ∧ (startedTimestamp (-1500)).nanos < 0
      ∧ (startedTimestamp (-1500)).seconds ≠ Int.fdiv (-1500) 1000
      ∧ (startedTimestamp (-1500)).nanos ≠ Int.emod (-1500) 1000 * 1000000 := by
  refine ⟨?_, by decide, by decide, by decide⟩
  rfl

/-- Claim C3 as amended: the code converts Started with truncating division
and the truncated remainder (Int.tdiv and Int.tmod); for every nonnegative
millis this agrees with the claimed floor division and true modulo and the
nanos field is nonnegative, but for negative millis with a nonzero
remainder the nanos field is negative. -/
theorem listHeaders_started_conversion (c : GridColumn) :
    (headerOfColumn c).started
        = ⟨Int.tdiv c.started 1000, Int.tmod c.started 1000 * 1000000⟩
      ∧ (0 ≤ c.started →
          (headerOfColumn c).started
              = ⟨Int.fdiv c.started 1000, Int.emod c.started 1000 * 1000000⟩
            ∧ 0 ≤ (headerOfColumn c).started.nanos) := by
  refine ⟨rfl, fun h => ⟨?_, ?_⟩⟩
  · show startedTimestamp c.started = _
    unfold startedTimestamp
    rw [Int.fdiv_eq_tdiv h (by norm_num), Int.tmod_eq_emod h (by norm_num)]
    rfl
  · show 0 ≤ Int.tmod c.started 1000 * 1000000
    have := Int.tmod_nonneg (1000 : Int) h
    positivity

/-- Witness for the amended C3 at the spec example started = 1500:
seconds = 1 and nanos = 500000000, nanos nonnegative. -/
theorem listHeaders_started_conversion_witness :
    (headerOfColumn ⟨"c1", "b1", 1500, [], ""⟩).started
        = ⟨Int.fdiv 1500 1000, Int.emod 1500 1000 * 1000000⟩
      ∧ 0 ≤ (headerOfColumn ⟨"c1", "b1", 1500, [], ""⟩).started.nanos :=
  (listHeaders_started_conversion ⟨"c1", "b1", 1500, [], ""⟩).2 (by decide)

theorem getElem?_eq_some_getD {α : Type} (l : List α) (i : Nat) (d : α)
    (h : i < l.length) : l[i]? = some (l.getD i d) := by
  rw [List.getElem?_eq_getElem h, List.getD_eq_getElem l d h]

theorem traverseOption_map {α β : Type} (f : α → Option β) (g : α → β)
    (l : List α) (h : ∀ a ∈ l, f a = some (g a)) :
    traverseOption f l = some (l.map g) := by
  induction l with
  | nil => rfl
  | cons a rest ih =>
      simp only [traverseOption, h a (List.mem_cons_self a rest),
        ih (fun b hb => h b (List.mem_cons_of_mem a hb)), List.map_cons]

theorem traverseOption_none {α β : Type} (f : α → Option β) (l : List α)
    (a : α) (ha : a ∈ l) (hfa : f a = none) :
    traverseOption f l = none := by
  induction l with
  | nil => cases ha
  | cons b rest ih =>
      rcases List.mem_cons.mp ha with h | h
      · subst h
        simp only [traverseOption, hfa]
      · have hr := ih h
        unfold traverseOption
        rw [hr]
        cases f b <;> rfl

theorem rowCells_aligned (r : GridRow)
    (h1 : (decodeRLE r.results).length = r.cellIds.length)
    (h2 : r.messages.length = r.cellIds.length)
    (h3 : r.icons.length = r.cellIds.length) :
    rowCells r
      = some ((List.range r.cellIds.length).map (fun i =>
          ⟨(decodeRLE r.results).getD i 0, r.cellIds.getD i "",
           r.messages.getD i "", r.icons.getD i ""⟩)) := by
  unfold rowCells
  apply traverseOption_map
  intro i hi
  rw [List.mem_range] at hi
  unfold cellAt
  rw [getElem?_eq_some_getD _ _ 0 (by omega),
    getElem?_eq_some_getD _ _ "" hi,
    getElem?_eq_some_getD _ _ "" (by omega),
    getElem?_eq_some_getD _ _ "" (by omega)]

theorem listRowsOfGrid_aligned (g : Grid)
    (halign : ∀ r ∈ g.rows,
      (decodeRLE r.results).length = r.cellIds.length
      ∧ r.messages.length = r.cellIds.length
      ∧ r.icons.length = r.cellIds.length) :
    listRowsOfGrid g
      = some (g.rows.map (fun r =>
          ⟨r.name, r.issues,
           (List.range r.cellIds.length).map (fun i =>
             ⟨(decodeRLE r.results).getD i 0, r.cellIds.getD i "",
              r.messages.getD i "", r.icons.getD i ""⟩)⟩)) := by
  unfold listRowsOfGrid
  apply traverseOption_map
  intro r hr
  obtain ⟨h1, h2, h3⟩ := halign r hr
  unfold rowRecord
  rw [rowCells_aligned r h1 h2 h3]
  rfl

/-- Claim C7: when every row of the fetched grid satisfies the alignment
invariant, ListRows succeeds with one RowRecord per grid row in grid order,
whose cells are the positional zip of the decoded results with the cellIds,
messages and icons arrays. -/
theorem listRows_aligned_zip (s : Server) (c : Option CachedConfig)
    (scope dashboard tab : String) (fr : FindResult) (g : Grid)
    (hfind : findDashboardTab c dashboard tab = some fr)
    (herr : fr.err = none)
    (hfetch : fetchGrid s scope fr.dashboardName fr.tabName
        fr.testGroupName = .ok (some g))
    (halign : ∀ r ∈ g.rows,
      (decodeRLE r.results).length = r.cellIds.length
      ∧ r.messages.length = r.cellIds.length
      ∧ r.icons.length = r.cellIds.length) :
    listRows s (.ok c) scope dashboard tab
      = some (.ok (g.rows.map (fun r =>
          ⟨r.name, r.issues,
           (List.range r.cellIds.length).map (fun i =>
             ⟨(decodeRLE r.results).getD i 0, r.cellIds.getD i "",
              r.messages.getD i "", r.icons.getD i ""⟩)⟩))) := by
  simp only [listRows, hfind, herr, hfetch, listRowsOfGrid_aligned g halign]

/-- Witness for C7 on wServerTab and wCfg: the aligned row of wGrid yields
exactly its positional zip. -/
theorem listRows_aligned_zip_witness :
    listRows wServerTab (.ok (some wCfg)) "scope" "My Dash" "Tab1"
      = some (.ok (wGrid.rows.map (fun r =>
          ⟨r.name, r.issues,
           (List.range r.cellIds.length).map (fun i =>
             ⟨(decodeRLE r.results).getD i 0, r.cellIds.getD i "",
              r.messages.getD i "", r.icons.getD i ""⟩)⟩))) :=
  listRows_aligned_zip wServerTab (some wCfg) "scope" "My Dash" "Tab1"
    ⟨"My Dash", "Tab1", "group1", none⟩ wGrid rfl rfl rfl (by decide)

/-- Counterexample to claim C2: the single row of gMismatch has decoded
results of length 4 against parallel arrays of length 2, yet ListRows
succeeds, returning that row with its cells silently truncated to the two
cellIds entries and no error of any kind (the ApiError type has no
malformed-grid constructor). -/
theorem listRows_mismatch_counterexample :
    (decodeRLE ([1, 4] : List Int)).length ≠ (["a", "b"] : List String).length
    ∧ listRows wServerMismatch (.ok (some wCfg)) "scope" "My Dash" "Tab1"
        = some (.ok [⟨"row1", [],
            [⟨1, "a", "m1", "i1"⟩, ⟨1, "b", "m2", "i2"⟩]⟩]) :=
  ⟨by decide, rfl⟩

/-- Claim C2 as amended: ListRows performs no length validation on a row.
With n = len(cellIds): when the decoded results and the messages and icons
arrays all have length at least n, the row is returned with exactly n cells
and entries beyond index n - 1 are silently dropped; when the decoded
results are shorter than n, the cell loop indexes out of range, which is a
Go panic (modelled none), not a MalformedGrid error. -/
theorem rowCells_no_validation (r : GridRow) :
    ((decodeRLE r.results).length ≥ r.cellIds.length →
      r.messages.length ≥ r.cellIds.length →
      r.icons.length ≥ r.cellIds.length →
      rowCells r
        = some ((List.range r.cellIds.length).map (fun i =>
            ⟨(decodeRLE r.results).getD i 0, r.cellIds.getD i "",
             r.messages.getD i "", r.icons.getD i ""⟩))
      ∧ ∀ cells, rowCells r = some cells → cells.length = r.cellIds.length)
    ∧ ((decodeRLE r.results).length < r.cellIds.length →
        rowCells r = none) := by
  constructor
  · intro hd hm hi
    have heq : rowCells r
        = some ((List.range r.cellIds.length).map (fun i =>
            ⟨(decodeRLE r.results).getD i 0, r.cellIds.getD i "",
             r.messages.getD i "", r.icons.getD i ""⟩)) := by
      unfold rowCells
      apply traverseOption_map
      intro i hidx
      rw [List.mem_range] at hidx
      unfold cellAt
      rw [getElem?_eq_some_getD _ _ 0 (by omega),
        getElem?_eq_some_getD _ _ "" hidx,
        getElem?_eq_some_getD _ _ "" (by omega),
        getElem?_eq_some_getD _ _ "" (by omega)]
    refine ⟨heq, fun cells hc => ?_⟩
    rw [heq] at hc
    cases hc
    simp
  · intro hlt
    unfold rowCells
    apply traverseOption_none _ _ (decodeRLE r.results).length
      (List.mem_range.mpr hlt)
    unfold cellAt
    rw [List.getElem?_eq_none (le_refl _)]

/-- Witness for the amended C2: the misaligned row of gMismatch (decoded
length 4, arrays length 2) yields exactly 2 truncated cells, and the short
row rShort (decoded length 1, cellIds length 2) panics. -/
theorem rowCells_no_validation_witness :
    (rowCells ⟨"row1", [1, 4], ["a", "b"], ["m1", "m2"], ["i1", "i2"], []⟩
        = some ((List.range (2 : Nat)).map (fun i =>
            ⟨(decodeRLE [1, 4]).getD i 0, (["a", "b"] : List String).getD i "",
             (["m1", "m2"] : List String).getD i "",
             (["i1", "i2"] : List String).getD i ""⟩))
      ∧ ∀ cells,
          rowCells ⟨"row1", [1, 4], ["a", "b"], ["m1", "m2"], ["i1", "i2"], []⟩
            = some cells → cells.length = 2)
    ∧ rowCells rShort = none :=
  ⟨(rowCells_no_validation
      ⟨"row1", [1, 4], ["a", "b"], ["m1", "m2"], ["i1", "i2"], []⟩).1
      (by decide) (by decide) (by decide),
   (rowCells_no_validation rShort).2 (by decide)⟩

/-- Claim C6: once the config path resolves, the fetch mode is selected by
whether TabPathPrefix is configured: when it is empty the blob path comes
from GroupGrid, which resolves the join of GridPathPrefix and the test
group name against the config path; when it is nonempty the path comes from
the tabulator tab state layout built from the dashboard and tab names. -/
theorem fetchGrid_mode_selection (s : Server)
    (scope d t g cp : String) (hcp : s.env.configPath scope = .ok cp) :
    (s.tabPathPfx = "" →
      fetchGrid s scope d t g = groupGrid s cp g
      ∧ groupGrid s cp g
        = (match s.env.resolveReference cp (pathJoin s.gridPathPfx g) with
           | .error e => .error ("resolve: " ++ e)
           | .ok gp =>
               match s.env.downloadGrid gp with
               | .error e => .error ("load: " ++ e)
               | .ok gr => .ok gr))
    ∧ (s.tabPathPfx ≠ "" →
      fetchGrid s scope d t g
        = (match s.env.tabStatePath cp s.tabPathPfx d t with
           | .error e => .error ("tab state path: " ++ e)
           | .ok p => s.env.downloadGrid p)) := by
  constructor
  · intro h
    refine ⟨?_, rfl⟩
    unfold fetchGrid
    rw [hcp]
    simp [h]
  · intro h
    unfold fetchGrid
    rw [hcp]
    simp [h]

/-- Witness for C6: the group-mode server fetches via GroupGrid and the
tab-mode server fetches via the tab state path. -/
theorem fetchGrid_mode_selection_witness :
    (fetchGrid wServerGroup "scope" "d" "t" "g"
        = groupGrid wServerGroup "gs://bucket/config" "g")
    ∧ fetchGrid wServerTab "scope" "d" "t" "g"
        = (match wServerTab.env.tabStatePath "gs://bucket/config"
              wServerTab.tabPathPfx "d" "t" with
           | .error e => .error ("tab state path: " ++ e)
           | .ok p => wServerTab.env.downloadGrid p) :=
  ⟨((fetchGrid_mode_selection wServerGroup "scope" "d" "t" "g"
      "gs://bucket/config" rfl).1 rfl).1,
   (fetchGrid_mode_selection wServerTab "scope" "d" "t" "g"
      "gs://bucket/config" rfl).2 (by decide)⟩

/-- Counterexample to claim C9: with identity resolution succeeding and the
blob fetch failing, ListHeaders does not return a server-failure class kept
distinct from not-found: it returns the dashboardOrTabNotFound error, whose
message is worded as a not-found message, and the HTTP boundary maps it to
the same 404 status as the nil-grid case, so not only the nil-grid case
maps to the not-found external status. -/
theorem listHeaders_fetch_failure_counterexample :
    listHeaders wServerFail (.ok (some wCfg)) "scope" "My Dash" "Tab1"
        = some (.error (.dashboardOrTabNotFound "My Dash" "Tab1"))
    ∧ (ApiError.dashboardOrTabNotFound "My Dash" "Tab1").message
        = "Dashboard \x7b\"My Dash\"\x7d or tab \x7b\"Tab1\"\x7d not found"
    ∧ listHeadersHTTPStatus
        (listHeaders wServerFail (.ok (some wCfg)) "scope" "My Dash" "Tab1")
        = some statusNotFound
    ∧ listHeaders wServerNil (.ok (some wCfg)) "scope" "My Dash" "Tab1"
        = some (.error .gridNotFound)
    ∧ listHeadersHTTPStatus
        (listHeaders wServerNil (.ok (some wCfg)) "scope" "My Dash" "Tab1")
        = some statusNotFound :=
  ⟨rfl, rfl, rfl, rfl, rfl⟩

/-- Claim C9 as amended: when identity resolution succeeds, a blob fetch
failure makes ListHeaders return the dashboardOrTabNotFound error built
from the request inputs, and a nil grid makes it return the gridNotFound
error; the two error values are distinguishable, but the HTTP boundary maps
both, like every error, to the not-found status 404. -/
theorem listHeaders_fetch_errors (s : Server) (c : Option CachedConfig)
    (scope dashboard tab : String) (fr : FindResult)
    (hfind : findDashboardTab c dashboard tab = some fr)
    (herr : fr.err = none) :
    (∀ e, fetchGrid s scope fr.dashboardName fr.tabName
        fr.testGroupName = .error e →
      listHeaders s (.ok c) scope dashboard tab
          = some (.error (.dashboardOrTabNotFound dashboard tab))
      ∧ listHeadersHTTPStatus (listHeaders s (.ok c) scope dashboard tab)
          = some statusNotFound)
    ∧ (fetchGrid s scope fr.dashboardName fr.tabName
        fr.testGroupName = .ok none →
      listHeaders s (.ok c) scope dashboard tab = some (.error .gridNotFound)
      ∧ listHeadersHTTPStatus (listHeaders s (.ok c) scope dashboard tab)
          = some statusNotFound)
    ∧ (∀ d t, ApiError.dashboardOrTabNotFound d t ≠ ApiError.gridNotFound) := by
  refine ⟨fun e hfetch => ?_, fun hfetch => ?_, fun d t h => by cases h⟩
  · have : listHeaders s (.ok c) scope dashboard tab
        = some (.error (.dashboardOrTabNotFound dashboard tab)) := by
      simp only [listHeaders, hfind, herr, hfetch]
    exact ⟨this, by rw [this]; rfl⟩
  · have : listHeaders s (.ok c) scope dashboard tab
        = some (.error .gridNotFound) := by
      simp only [listHeaders, hfind, herr, hfetch]
    exact ⟨this, by rw [this]; rfl⟩

/-- Witness for the amended C9: the nil-grid server yields gridNotFound at
status 404, the failing-download server yields dashboardOrTabNotFound at
status 404, and the two error values differ. -/
theorem listHeaders_fetch_errors_witness :
    (listHeaders wServerFail (.ok (some wCfg)) "scope" "My Dash" "Tab1"
        = some (.error (.dashboardOrTabNotFound "My Dash" "Tab1"))
      ∧ listHeadersHTTPStatus
          (listHeaders wServerFail (.ok (some wCfg)) "scope" "My Dash" "Tab1")
          = some statusNotFound)
    ∧ (listHeaders wServerNil (.ok (some wCfg)) "scope" "My Dash" "Tab1"
        = some (.error .gridNotFound)
      ∧ listHeadersHTTPStatus
          (listHeaders wServerNil (.ok (some wCfg)) "scope" "My Dash" "Tab1")
          = some statusNotFound)
    ∧ ApiError.dashboardOrTabNotFound "My Dash" "Tab1" ≠ ApiError.gridNotFound := by
  refine ⟨?_, ?_, ?_⟩
  · exact (listHeaders_fetch_errors wServerFail (some wCfg) "scope" "My Dash"
      "Tab1" ⟨"My Dash", "Tab1", "group1", none⟩ rfl rfl).1
      "storage: connection reset" rfl
  · exact (listHeaders_fetch_errors wServerNil (some wCfg) "scope" "My Dash"
      "Tab1" ⟨"My Dash", "Tab1", "group1", none⟩ rfl rfl).2.1 rfl
  · exact (listHeaders_fetch_errors wServerNil (some wCfg) "scope" "My Dash"
      "Tab1" ⟨"My Dash", "Tab1", "group1", none⟩ rfl rfl).2.2 "My Dash" "Tab1"

end TestgridAPI

